import Mathlib

/-!
Verification development for the kvapp key/value HTTP service
(src/main.rs). The data model, handlers, routing table and configuration
parsing are shallowly embedded as executable Lean definitions, translated
from the Rust source; theorems below settle the specification claims.
-/

set_option autoImplicit false

namespace Kvapp

/-- JSON values, modelling the serde_json values built by the handlers
with the json bang macro and parsed from the configuration file.
Objects are field lists in source order. -/
inductive Json where
  | null : Json
  | bool : Bool → Json
  | num : Int → Json
  | str : String → Json
  | arr : List Json → Json
  | obj : List (String × Json) → Json

/-- Look up a field of a JSON object field list by key, first match wins. -/
def jlookup (fields : List (String × Json)) (k : String) : Option Json :=
  (fields.find? (fun p => p.1 == k)).map Prod.snd

/-- Top level field names of a JSON object, nil otherwise. -/
def topKeys : Json → List String
  | Json.obj fields => fields.map Prod.fst
  | _ => []

/-- Byte strings: sled keys and values are byte sequences; each list
entry models one byte. -/
abbrev Bytes := List Nat

/-- One store operation performed by a handler against the sled Db
handle, recorded for operation counting claims. -/
inductive StoreOp where
  | get : String → StoreOp
  | insert : String → Bytes → StoreOp
  | remove : String → StoreOp
deriving DecidableEq

/-- The embedded sled engine: its current key to value association,
plus a flag modelling engine level I/O failure (sled operations return
Result; Err surfaces as HTTP 500). -/
structure Engine where
  data : List (String × Bytes)
  failing : Bool
deriving DecidableEq

/-- Current value held for a key (the map the association list denotes). -/
def storeLookup (e : Engine) (k : String) : Option Bytes :=
  (e.data.find? (fun p => p.1 == k)).map Prod.snd

/-- Data after an insert: the new pair shadows and replaces any prior
binding of the key. -/
def engineInsertData (e : Engine) (k : String) (v : Bytes) : Engine :=
  { data := (k, v) :: e.data.filter (fun p => p.1 != k), failing := e.failing }

/-- Data after a remove: any binding of the key is dropped. -/
def engineRemoveData (e : Engine) (k : String) : Engine :=
  { data := e.data.filter (fun p => p.1 != k), failing := e.failing }

/-- Db.get: Result of an optional value. -/
def engineGet (e : Engine) (k : String) : Except Unit (Option Bytes) :=
  if e.failing then Except.error () else Except.ok (storeLookup e k)

/-- Db.insert: returns the previous value (unused by the handler) and
the updated engine. -/
def engineInsert (e : Engine) (k : String) (v : Bytes) :
    Except Unit (Option Bytes × Engine) :=
  if e.failing then Except.error ()
  else Except.ok (storeLookup e k, engineInsertData e k v)

/-- Db.remove: returns the removed value, if any, and the updated engine. -/
def engineRemove (e : Engine) (k : String) :
    Except Unit (Option Bytes × Engine) :=
  if e.failing then Except.error ()
  else Except.ok (storeLookup e k, engineRemoveData e k)

/-- Response body: raw binary or serialized JSON. -/
inductive Body where
  | bin : Bytes → Body
  | json : Json → Body

/-- An HTTP response as built by the handlers: status code, content type
header, body. -/
structure Response where
  status : Nat
  contentType : String
  body : Body

/-- Application name constant from main.rs. -/
def APPNAME : String := "kvapp"

/-- Default database nickname from main.rs. -/
def DEF_DB_NAME : String := "db"

/-- Default on-disk database directory from main.rs. -/
def DEF_DB_DIR : String := "db.kv"

/-- Helper function, 404 not found (err_not_found in main.rs). -/
def err_not_found : Response :=
  { status := 404
    contentType := "application/json"
    body := Body.json (Json.obj
      [("error", Json.obj
        [("code", Json.num (-404)), ("message", Json.str "not found")])]) }

/-- Helper function, server error (err_500 in main.rs). -/
def err_500 : Response :=
  { status := 500
    contentType := "application/json"
    body := Body.json (Json.obj
      [("error", Json.obj
        [("code", Json.num (-500)),
         ("message", Json.str "internal server error")])]) }

/-- Helper function, success plus binary response (ok_binary in main.rs). -/
def ok_binary (val : Bytes) : Response :=
  { status := 200, contentType := "application/octet-stream", body := Body.bin val }

/-- Helper function, success plus json response (ok_json in main.rs). -/
def ok_json (jval : Json) : Response :=
  { status := 200, contentType := "application/json", body := Body.json jval }

/-- ServerState from main.rs: db nickname and the open db handle. -/
structure ServerState where
  name : String
  db : Engine
deriving DecidableEq

/-- Index handler req_index. The crate version string (VERSION, taken by
the source from Cargo package metadata outside src/) is passed as a
parameter. Returns the service description JSON. -/
def req_index (version : String) (state : ServerState) : Response :=
  ok_json (Json.obj
    [("name", Json.str APPNAME),
     ("version", Json.str version),
     ("databases", Json.arr [Json.obj [("name", Json.str state.name)]])])

/-- GET handler req_get: path is the pair (db nickname, key). Returns the
response together with the list of store operations performed. -/
def req_get (state : ServerState) (db key : String) :
    Response × List StoreOp :=
  if state.name ≠ db then (err_not_found, [])
  else
    match engineGet state.db key with
    | Except.ok (some val) => (ok_binary val, [StoreOp.get key])
    | Except.ok none => (err_not_found, [StoreOp.get key])
    | Except.error _ => (err_500, [StoreOp.get key])

/-- PUT handler req_put: body bytes are stored under the key. Returns the
response, the updated server state, and the store operations performed. -/
def req_put (state : ServerState) (db key : String) (body : Bytes) :
    Response × ServerState × List StoreOp :=
  if state.name ≠ db then (err_not_found, state, [])
  else
    match engineInsert state.db key body with
    | Except.ok (_optval, e2) =>
        (ok_json (Json.obj [("result", Json.bool true)]),
         { state with db := e2 }, [StoreOp.insert key body])
    | Except.error _ => (err_500, state, [StoreOp.insert key body])

/-- DELETE handler req_delete. Returns the response, the updated server
state, and the store operations performed. -/
def req_delete (state : ServerState) (db key : String) :
    Response × ServerState × List StoreOp :=
  if state.name ≠ db then (err_not_found, state, [])
  else
    match engineRemove state.db key with
    | Except.ok (some _val, e2) =>
        (ok_json (Json.obj [("result", Json.bool true)]),
         { state with db := e2 }, [StoreOp.remove key])
    | Except.ok (none, e2) =>
        (err_not_found, { state with db := e2 }, [StoreOp.remove key])
    | Except.error _ => (err_500, state, [StoreOp.remove key])

/-- HTTP methods used by the registered routes. -/
inductive Method where
  | GET : Method
  | PUT : Method
  | DELETE : Method
deriving DecidableEq

/-- The two path patterns registered in main: the root resource and the
api resource with db and key segments. -/
inductive RoutePattern where
  | root : RoutePattern
  | apiDbKey : RoutePattern
deriving DecidableEq

/-- The routing table registered on the App in main.rs: req_index at the
root, and get, put, delete at the api resource. -/
def routes : List (Method × RoutePattern) :=
  [(Method.GET, RoutePattern.root),
   (Method.GET, RoutePattern.apiDbKey),
   (Method.PUT, RoutePattern.apiDbKey),
   (Method.DELETE, RoutePattern.apiDbKey)]

/-- Whether a route pattern matches a request path, given as its list of
segments. -/
def patternMatches : RoutePattern → List String → Bool
  | RoutePattern.root, [] => true
  | RoutePattern.apiDbKey, ["api", _, _] => true
  | _, _ => false

/-- Whether any registered route matches the method and path segments. -/
def routeMatch (m : Method) (segs : List String) : Bool :=
  routes.any (fun r => decide (r.1 = m) && patternMatches r.2 segs)

/-- DbConfig from main.rs: nickname and on-disk path of one database. -/
structure DbConfig where
  name : String
  path : String
deriving DecidableEq

/-- ServerConfig from main.rs: a list of database configurations. -/
structure ServerConfig where
  databases : List DbConfig
deriving DecidableEq

/-- Deserialize a DbConfig from JSON as serde does: an object whose
name and path fields are strings; extra fields are ignored. -/
def parseDbConfig : Json → Option DbConfig
  | Json.obj fields =>
      match jlookup fields "name", jlookup fields "path" with
      | some (Json.str n), some (Json.str p) => some { name := n, path := p }
      | _, _ => none
  | _ => none

/-- Deserialize every element of the databases array. -/
def parseDbConfigs : List Json → Option (List DbConfig)
  | [] => some []
  | j :: rest =>
      match parseDbConfig j, parseDbConfigs rest with
      | some d, some ds => some (d :: ds)
      | _, _ => none

/-- Deserialize a ServerConfig from JSON as serde does: an object whose
databases field is an array of DbConfig objects; the field is required. -/
def parseServerConfig : Json → Option ServerConfig
  | Json.obj fields =>
      match jlookup fields "databases" with
      | some (Json.arr dbs) =>
          (parseDbConfigs dbs).map (fun ds => { databases := ds })
      | _ => none
  | _ => none

/-- Follows the words of the specification, for comparison only: the
configuration file is a single database object, of shape
a top level object with one database field holding name and path. -/
def parseSpecServerConfig : Json → Option DbConfig
  | Json.obj fields =>
      match jlookup fields "database" with
      | some j => parseDbConfig j
      | _ => none
  | _ => none

/-- Database selection in main.rs: first entry of the databases list, or
the default name and directory when the list is empty. -/
def selectDb (cfg : ServerConfig) : String × String :=
  match cfg.databases with
  | [] => (DEF_DB_NAME, DEF_DB_DIR)
  | d :: _ => (d.name, d.path)

/-- Server state constructed at startup in main.rs: nickname from the
selected database configuration, engine opened at the selected path
(the opened engine is a parameter since opening is I/O). -/
def startupState (cfg : ServerConfig) (e : Engine) : ServerState :=
  { name := (selectDb cfg).1, db := e }

end Kvapp

namespace Kvapp

/-- Finding a key among entries filtered to exclude that key fails. -/
theorem find?_filter_bne (l : List (String × Bytes)) (k : String) :
    (l.filter (fun p => p.1 != k)).find? (fun p => p.1 == k) = none := by
  induction l with
  | nil => rfl
  | cons a l ih =>
      by_cases h : a.1 = k
      · simp [List.filter_cons, h, ih]
      · simp [List.filter_cons, List.find?_cons, h, ih]

/-- After an insert, the inserted key maps to the inserted value. -/
theorem storeLookup_insertData_self (e : Engine) (k : String) (v : Bytes) :
    storeLookup (engineInsertData e k v) k = some v := by
  simp [storeLookup, engineInsertData, List.find?_cons]

/-- After a remove, the removed key maps to nothing. -/
theorem storeLookup_removeData_self (e : Engine) (k : String) :
    storeLookup (engineRemoveData e k) k = none := by
  simp [storeLookup, engineRemoveData, find?_filter_bne]

/-- After an insert, the inserted key is bound only to the new value. -/
theorem mem_insertData_eq (e : Engine) (k : String) (v w : Bytes)
    (h : (k, w) ∈ (engineInsertData e k v).data) : w = v := by
  simp [engineInsertData, List.mem_filter] at h
  exact h

end Kvapp

namespace Kvapp

/-- Extract the top level field names of a JSON response body. -/
def bodyKeys : Body → List String
  | Body.json j => topKeys j
  | Body.bin _ => []

/-- Follows the words of the specification, for comparison only: the index
response body claimed by the spec, with a single database_info object
holding the nickname. -/
def specIndexBody (version nickname : String) : Json :=
  Json.obj
    [("name", Json.str APPNAME),
     ("version", Json.str version),
     ("database_info", Json.obj [("name", Json.str nickname)])]

/-- A concrete healthy engine holding one record, used by witnesses. -/
def engW : Engine := { data := [("x", [104, 105])], failing := false }

/-- A concrete empty healthy engine, used by witnesses. -/
def engEmpty : Engine := { data := [], failing := false }

/-- A concrete server state used by witnesses: nickname db, engine engW. -/
def stW : ServerState := { name := "db", db := engW }

/-- Claim C1: the routing table registered in main contains no route
matching GET /health, while the root route and the api routes it does
register do match; a GET /health request is therefore unmatched and falls
through to the framework's default not found response, instead of the
health probe mapping onto statuses 200 and 500 that the specification and
the repository's own integration tests require. -/
theorem health_route_unregistered :
    routeMatch Method.GET ["health"] = false ∧
    routeMatch Method.GET [] = true ∧
    routeMatch Method.GET ["api", "db", "k"] = true ∧
    routeMatch Method.PUT ["api", "db", "k"] = true ∧
    routeMatch Method.DELETE ["api", "db", "k"] = true := by
  refine ⟨rfl, rfl, rfl, rfl, rfl⟩

/-- Claim C6 counterexample: the index response body produced by the code
at a concrete state does not have the shape claimed by the specification,
whose database_info field the code does not emit (the code emits a
databases array instead). -/
theorem index_body_not_spec_shape :
    (req_index "1.0.0" { name := "db", db := engEmpty }).body
      ≠ Body.json (specIndexBody "1.0.0" "db") := by
  intro h
  exact absurd (congrArg bodyKeys h) (by decide)

/-- Claim C6 amended: every GET / request returns 200 with content type
application/json and body of the shape with fields name, version and
databases, the databases field holding a one element array containing an
object with the configured store nickname; the response is independent of
the store contents. -/
theorem index_contract (version : String) (st : ServerState) :
    (req_index version st).status = 200 ∧
    (req_index version st).contentType = "application/json" ∧
    (req_index version st).body = Body.json (Json.obj
      [("name", Json.str "kvapp"),
       ("version", Json.str version),
       ("databases", Json.arr [Json.obj [("name", Json.str st.name)]])]) ∧
    (∀ e2 : Engine, req_index version { st with db := e2 } = req_index version st) := by
  exact ⟨rfl, rfl, rfl, fun e2 => rfl⟩

/-- Claim C7 counterexample: the single database object shape the
specification calls authoritative is rejected by the configuration parser
of the code, while the databases list shape is accepted; the parser
modelled on the words of the specification accepts the former. -/
theorem config_single_object_rejected :
    parseServerConfig (Json.obj [("database",
        Json.obj [("name", Json.str "db"), ("path", Json.str "db.kv")])]) = none ∧
    parseSpecServerConfig (Json.obj [("database",
        Json.obj [("name", Json.str "db"), ("path", Json.str "db.kv")])])
      = some { name := "db", path := "db.kv" } ∧
    parseServerConfig (Json.obj [("databases", Json.arr [
        Json.obj [("name", Json.str "db"), ("path", Json.str "db.kv")]])])
      = some { databases := [{ name := "db", path := "db.kv" }] } := by
  refine ⟨rfl, rfl, rfl⟩

/-- Claim C7 amended: the configuration file has the shape of an object
with a databases list; when the list is nonempty, the first entry's name
and path are the ones selected to open the store, and that name is the
nickname the index endpoint reports. -/
theorem config_contract (cfg : ServerConfig) (d : DbConfig)
    (rest : List DbConfig) (h : cfg.databases = d :: rest)
    (version : String) (e : Engine) :
    selectDb cfg = (d.name, d.path) ∧
    (startupState cfg e).name = d.name ∧
    (req_index version (startupState cfg e)).body = Body.json (Json.obj
      [("name", Json.str APPNAME), ("version", Json.str version),
       ("databases", Json.arr [Json.obj [("name", Json.str d.name)]])]) := by
  refine ⟨?_, ?_, ?_⟩ <;> simp [selectDb, h, startupState, req_index, ok_json]

/-- Claim C7 amended witness at a concrete two entry configuration. -/
theorem config_contract_witness :
    selectDb { databases := [{ name := "a", path := "p" },
                             { name := "b", path := "q" }] } = ("a", "p") :=
  (config_contract { databases := [{ name := "a", path := "p" },
      { name := "b", path := "q" }] } { name := "a", path := "p" }
      [{ name := "b", path := "q" }] rfl "1.0.0" engEmpty).1

/-- Claim C10: a configuration whose databases list is empty parses
successfully, and database selection falls back to the default nickname
db and default directory db.kv instead of aborting; the resulting server
state carries the default nickname. -/
theorem empty_config_defaults :
    parseServerConfig (Json.obj [("databases", Json.arr [])])
      = some { databases := [] } ∧
    selectDb { databases := [] } = (DEF_DB_NAME, DEF_DB_DIR) ∧
    selectDb { databases := [] } = ("db", "db.kv") ∧
    (startupState { databases := [] } engEmpty).name = "db" := by
  refine ⟨rfl, rfl, rfl, rfl⟩

end Kvapp

namespace Kvapp

/-- Inserting preserves the engine failure flag. -/
theorem engineInsertData_failing (e : Engine) (k : String) (v : Bytes) :
    (engineInsertData e k v).failing = e.failing := rfl

/-- Removing preserves the engine failure flag. -/
theorem engineRemoveData_failing (e : Engine) (k : String) :
    (engineRemoveData e k).failing = e.failing := rfl

/-- Claim C2: with the configured nickname addressed, the GET handler
returns 200 with content type application/octet-stream and the raw stored
bytes on a hit, the canonical not found error on a miss, the canonical
internal error on engine failure, and performs exactly one store get
operation. -/
theorem req_get_contract (st : ServerState) (db k : String)
    (h : st.name = db) :
    (st.db.failing = false → ∀ v : Bytes, storeLookup st.db k = some v →
      (req_get st db k).1 = ok_binary v ∧
      (req_get st db k).1.status = 200 ∧
      (req_get st db k).1.contentType = "application/octet-stream" ∧
      (req_get st db k).1.body = Body.bin v) ∧
    (st.db.failing = false → storeLookup st.db k = none →
      (req_get st db k).1 = err_not_found) ∧
    (st.db.failing = true → (req_get st db k).1 = err_500) ∧
    (req_get st db k).2 = [StoreOp.get k] := by
  subst h
  refine ⟨?_, ?_, ?_, ?_⟩
  · intro hf v hv
    simp [req_get, engineGet, hf, hv, ok_binary]
  · intro hf hv
    simp [req_get, engineGet, hf, hv]
  · intro hf
    simp [req_get, engineGet, hf]
  · by_cases hf : st.db.failing <;>
      cases hv : storeLookup st.db k <;>
      simp [req_get, engineGet, hf, hv]

/-- Claim C2 witness: GET at a concrete state holding the key. -/
theorem req_get_contract_witness :
    (req_get stW "db" "x").1 = ok_binary [104, 105] ∧
    (req_get stW "db" "x").2 = [StoreOp.get "x"] :=
  ⟨((req_get_contract stW "db" "x" rfl).1 rfl [104, 105] rfl).1,
   (req_get_contract stW "db" "x" rfl).2.2.2⟩

/-- Claim C3: a successful PUT of body v under key k followed immediately
by a GET of k returns 200 with response body exactly the bytes v. -/
theorem put_get_roundtrip (st : ServerState) (db k : String) (v : Bytes)
    (hdb : st.name = db) (hf : st.db.failing = false) :
    (req_put st db k v).1.status = 200 ∧
    (req_get (req_put st db k v).2.1 db k).1 = ok_binary v := by
  subst hdb
  constructor
  · simp [req_put, engineInsert, hf, ok_json]
  · simp [req_put, engineInsert, hf, req_get, engineGet,
      engineInsertData_failing, storeLookup_insertData_self]

/-- Claim C3 witness at a concrete state, key and payload. -/
theorem put_get_roundtrip_witness :
    (req_put stW "db" "k" [1, 2, 3]).1.status = 200 ∧
    (req_get (req_put stW "db" "k" [1, 2, 3]).2.1 "db" "k").1
      = ok_binary [1, 2, 3] :=
  put_get_roundtrip stW "db" "k" [1, 2, 3] rfl rfl

/-- Claim C4: DELETE returns 200 with result true exactly when the key
holds a value, and removes it; DELETE and GET of an absent key both
return the not found error; DELETE repeated after a successful DELETE
returns the not found error. -/
theorem delete_contract (st : ServerState) (db k : String)
    (hdb : st.name = db) (hf : st.db.failing = false) :
    (∀ v : Bytes, storeLookup st.db k = some v →
      (req_delete st db k).1 = ok_json (Json.obj [("result", Json.bool true)]) ∧
      (req_delete st db k).1.status = 200 ∧
      storeLookup (req_delete st db k).2.1.db k = none) ∧
    (storeLookup st.db k = none →
      (req_delete st db k).1 = err_not_found ∧
      (req_get st db k).1 = err_not_found) ∧
    (∀ v : Bytes, storeLookup st.db k = some v →
      (req_delete (req_delete st db k).2.1 db k).1 = err_not_found) := by
  subst hdb
  refine ⟨?_, ?_, ?_⟩
  · intro v hv
    simp [req_delete, engineRemove, hf, hv, ok_json, storeLookup_removeData_self]
  · intro hv
    simp [req_delete, req_get, engineRemove, engineGet, hf, hv]
  · intro v hv
    simp [req_delete, engineRemove, hf, hv,
      engineRemoveData_failing, storeLookup_removeData_self]

/-- Claim C4 witness: delete of a held key succeeds once, then misses. -/
theorem delete_contract_witness :
    (req_delete stW "db" "x").1 = ok_json (Json.obj [("result", Json.bool true)]) ∧
    (req_delete (req_delete stW "db" "x").2.1 "db" "x").1 = err_not_found :=
  ⟨((delete_contract stW "db" "x" rfl rfl).1 [104, 105] rfl).1,
   (delete_contract stW "db" "x" rfl rfl).2.2 [104, 105] rfl⟩

/-- Claim C5: two successive successful PUTs to the same key leave the
store mapping the key to exactly the second value; a GET then returns the
second value, and no other value remains bound to the key. -/
theorem put_overwrites (st : ServerState) (db k : String) (v1 v2 : Bytes)
    (hdb : st.name = db) (hf : st.db.failing = false) :
    (req_put st db k v1).1.status = 200 ∧
    (req_put (req_put st db k v1).2.1 db k v2).1.status = 200 ∧
    storeLookup (req_put (req_put st db k v1).2.1 db k v2).2.1.db k = some v2 ∧
    (req_get (req_put (req_put st db k v1).2.1 db k v2).2.1 db k).1
      = ok_binary v2 ∧
    (∀ w : Bytes,
      (k, w) ∈ (req_put (req_put st db k v1).2.1 db k v2).2.1.db.data →
      w = v2) := by
  subst hdb
  refine ⟨?_, ?_, ?_, ?_, ?_⟩
  · simp [req_put, engineInsert, hf, ok_json]
  · simp [req_put, engineInsert, hf, engineInsertData_failing, ok_json]
  · simp [req_put, engineInsert, hf, engineInsertData_failing,
      storeLookup_insertData_self]
  · simp [req_put, engineInsert, hf, req_get, engineGet,
      engineInsertData_failing, storeLookup_insertData_self]
  · intro w hw
    exact mem_insertData_eq _ _ _ _
      (by simpa [req_put, engineInsert, hf, engineInsertData_failing] using hw)

/-- Claim C5 witness at a concrete state, key and two payloads. -/
theorem put_overwrites_witness :
    storeLookup (req_put (req_put stW "db" "k" [1]).2.1 "db" "k" [2]).2.1.db "k"
      = some [2] ∧
    (req_get (req_put (req_put stW "db" "k" [1]).2.1 "db" "k" [2]).2.1 "db" "k").1
      = ok_binary [2] :=
  ⟨(put_overwrites stW "db" "k" [1] [2] rfl rfl).2.2.1,
   (put_overwrites stW "db" "k" [1] [2] rfl rfl).2.2.2.1⟩

/-- Every GET handler response is the not found error, the internal
error, or a 200 binary response. -/
theorem req_get_cases (st : ServerState) (db k : String) :
    (req_get st db k).1 = err_not_found ∨ (req_get st db k).1 = err_500 ∨
    ∃ val : Bytes, (req_get st db k).1 = ok_binary val := by
  by_cases hn : st.name ≠ db
  · exact Or.inl (by simp [req_get, hn])
  · cases hg : engineGet st.db k with
    | error u => exact Or.inr (Or.inl (by simp [req_get, hn, hg]))
    | ok o =>
        cases o with
        | some val =>
            exact Or.inr (Or.inr ⟨val, by simp [req_get, hn, hg]⟩)
        | none => exact Or.inl (by simp [req_get, hn, hg])

/-- Every PUT handler response is the not found error, the internal
error, or a 200 json response. -/
theorem req_put_cases (st : ServerState) (db k : String) (v : Bytes) :
    (req_put st db k v).1 = err_not_found ∨ (req_put st db k v).1 = err_500 ∨
    (req_put st db k v).1 = ok_json (Json.obj [("result", Json.bool true)]) := by
  by_cases hn : st.name ≠ db
  · exact Or.inl (by simp [req_put, hn])
  · cases hg : engineInsert st.db k v with
    | error u => exact Or.inr (Or.inl (by simp [req_put, hn, hg]))
    | ok p => exact Or.inr (Or.inr (by simp [req_put, hn, hg]))

/-- Every DELETE handler response is the not found error, the internal
error, or a 200 json response. -/
theorem req_delete_cases (st : ServerState) (db k : String) :
    (req_delete st db k).1 = err_not_found ∨ (req_delete st db k).1 = err_500 ∨
    (req_delete st db k).1 = ok_json (Json.obj [("result", Json.bool true)]) := by
  by_cases hn : st.name ≠ db
  · exact Or.inl (by simp [req_delete, hn])
  · cases hg : engineRemove st.db k with
    | error u => exact Or.inr (Or.inl (by simp [req_delete, hn, hg]))
    | ok p =>
        cases p with
        | mk o e2 =>
            cases o with
            | some val => exact Or.inr (Or.inr (by simp [req_delete, hn, hg]))
            | none => exact Or.inl (by simp [req_delete, hn, hg])

/-- Claim C8: the index handler always answers 200; any non-200 response
of the get, put and delete handlers is one of the two canonical error
responses, whose bodies are the error envelope with code -404 and message
not found, and code -500 and message internal server error. -/
theorem error_envelope_canonical (version : String) (st : ServerState)
    (db k : String) (v : Bytes) :
    (req_index version st).status = 200 ∧
    ((req_get st db k).1.status ≠ 200 →
      (req_get st db k).1 = err_not_found ∨ (req_get st db k).1 = err_500) ∧
    ((req_put st db k v).1.status ≠ 200 →
      (req_put st db k v).1 = err_not_found ∨ (req_put st db k v).1 = err_500) ∧
    ((req_delete st db k).1.status ≠ 200 →
      (req_delete st db k).1 = err_not_found ∨ (req_delete st db k).1 = err_500) ∧
    err_not_found.status = 404 ∧
    err_not_found.body = Body.json (Json.obj [("error", Json.obj
      [("code", Json.num (-404)), ("message", Json.str "not found")])]) ∧
    err_500.status = 500 ∧
    err_500.body = Body.json (Json.obj [("error", Json.obj
      [("code", Json.num (-500)),
       ("message", Json.str "internal server error")])]) := by
  refine ⟨rfl, ?_, ?_, ?_, rfl, rfl, rfl, rfl⟩
  · intro hne
    rcases req_get_cases st db k with h | h | ⟨val, h⟩
    · exact Or.inl h
    · exact Or.inr h
    · exact absurd (by rw [h]; rfl) hne
  · intro hne
    rcases req_put_cases st db k v with h | h | h
    · exact Or.inl h
    · exact Or.inr h
    · exact absurd (by rw [h]; rfl) hne
  · intro hne
    rcases req_delete_cases st db k with h | h | h
    · exact Or.inl h
    · exact Or.inr h
    · exact absurd (by rw [h]; rfl) hne

/-- Claim C8 witness: a concrete non-200 response is one of the two
canonical errors. -/
theorem error_envelope_canonical_witness :
    (req_get stW "other" "x").1 = err_not_found ∨
    (req_get stW "other" "x").1 = err_500 :=
  (error_envelope_canonical "1.0.0" stW "other" "x" []).2.1 (by decide)

/-- Claim C9: a request addressed to a nickname other than the configured
one yields the not found error from each of the get, put and delete
handlers, performs no store operation, and leaves the state unchanged. -/
theorem nickname_mismatch_404 (st : ServerState) (db k : String)
    (v : Bytes) (h : st.name ≠ db) :
    (req_get st db k).1 = err_not_found ∧ (req_get st db k).2 = [] ∧
    (req_put st db k v).1 = err_not_found ∧ (req_put st db k v).2.1 = st ∧
    (req_put st db k v).2.2 = [] ∧
    (req_delete st db k).1 = err_not_found ∧
    (req_delete st db k).2.1 = st ∧
    (req_delete st db k).2.2 = [] := by
  simp [req_get, req_put, req_delete, h]

/-- Claim C9 witness at a concrete mismatching nickname. -/
theorem nickname_mismatch_404_witness :
    (req_get stW "other" "x").2 = [] ∧
    (req_delete stW "other" "x").1 = err_not_found :=
  ⟨(nickname_mismatch_404 stW "other" "x" [] (by decide)).2.1,
   (nickname_mismatch_404 stW "other" "x" [] (by decide)).2.2.2.2.2.1⟩

end Kvapp
